import Mathlib

/-!
Verification of the protocol engine in `serialcommunication.cpp`
(SequencerGUI). The engine state, its operations and the incoming-frame
decode loop are embedded shallowly: machine bytes are `Nat` (values 0..255
where the code masks), the Qt serial port and the boot timer are reduced to
the booleans the code queries (`isOpen`, `isActive`), signal emissions and
`sendData` calls are recorded as a list of `Event`s, and thrown
`SerialCommunicationException`s become an error value carried in the result.
-/

namespace SerialComm

/-- Modelled from the spec: `SequencePoint` (the header declaring it is not
among the sources; the fields are the ones `serialcommunication.cpp` reads:
`duration : u16`, `timeToTarget : u16`, and the list `point` of values). -/
structure SequencePoint where
  duration : Nat
  timeToTarget : Nat
  point : List Nat
deriving DecidableEq

/-- Modelled from the spec: the external `Sequence` collaborator, reduced to
the interface the engine uses: the ordered list of points, the cursor
`curPoint`, and the dimensionality `pointDim`. -/
structure Sequence where
  points : List SequencePoint
  curPoint : Nat
  pointDim : Nat
deriving DecidableEq

/-- Modelled from the spec: `numPoints()` is the total count of points. -/
def Sequence.numPoints (seq : Sequence) : Nat := seq.points.length

/-- Modelled from the spec: `point()` returns the point at the cursor. -/
def Sequence.point (seq : Sequence) : SequencePoint :=
  seq.points.getD seq.curPoint ⟨0, 0, []⟩

/-- Modelled from the spec: `setCurPoint(i)` moves the cursor. -/
def Sequence.setCurPoint (seq : Sequence) (i : Nat) : Sequence :=
  { seq with curPoint := i }

/-- Observable effects of the engine: bytes written to the serial port
(`sendData`) and the Qt signals it emits. `debugMessage` carries the bytes
of the text payload; `streamError` carries the offending byte of the
unknown-packet error. -/
inductive Event where
  | sent (bytes : List Nat)
  | streamStarted
  | streamStopped
  | debugMessage (text : List Nat)
  | streamError (byte : Nat)
deriving DecidableEq

/-- The `SerialCommunicationException` messages thrown by the engine, plus
`nullSequence` standing for the undefined behaviour of dereferencing
`m_sequence` when it is null (never reached on the paths the code takes). -/
inductive SerialError where
  | cannotOpenWhileStreaming
  | cannotCloseWhileStreaming
  | closedPort
  | alreadyStreaming
  | notStreaming
  | noStreamToStop
  | unknownMode
  | nullSequence
deriving DecidableEq

/-- The fields of `SerialCommunication` the protocol logic reads and
writes. `portOpen` is `m_serialPort.isOpen()`, `bootActive` is
`m_arduinoBoot.isActive()`; `sequence = none` is `m_sequence == nullptr`. -/
structure EngineState where
  portOpen : Bool
  bootActive : Bool
  isStreamMode : Bool
  isImmediateMode : Bool
  paused : Bool
  hardwareQueueFull : Bool
  incomingData : List Nat
  sequence : Option Sequence
deriving DecidableEq

/-- Modelled from the spec: the accessor `isStreaming()` lives in the header,
which is not among the sources; a session is active (mode not Idle) iff one
of the two mode flags is set. -/
def EngineState.isStreaming (s : EngineState) : Bool :=
  s.isStreamMode || s.isImmediateMode

/-- Result of one engine operation: the state after the call, the events it
produced (in order), and the exception it threw, if any. Mutations and
emissions that happen before a throw are retained, as they are in C++. -/
structure OpResult where
  st : EngineState
  evs : List Event
  err : Option SerialError
deriving DecidableEq

/-- C++ logical AND (`&&`) applied to integers, as the source (mistakenly,
per the spec) does where bitwise `&` masking was intended: the result is 1
when both operands are nonzero, else 0. -/
def cppAnd (a b : Nat) : Nat := if a ≠ 0 ∧ b ≠ 0 then 1 else 0

/-- `createSequencePacketForPoint`: byte `'P'` (80), then the duration and
timeToTarget fields, then one byte per value. The source writes
`(p.duration >> 8) && 0xFF` (logical AND) for bytes 1 and 3 and bitwise
`& 0xFF` for bytes 2 and 4 and the values. -/
def createSequencePacketForPoint (p : SequencePoint) : List Nat :=
  [80,
   cppAnd (p.duration >>> 8) 0xFF,
   p.duration &&& 0xFF,
   cppAnd (p.timeToTarget >>> 8) 0xFF,
   p.timeToTarget &&& 0xFF]
  ++ p.point.map (fun v => v &&& 0xFF)

/-- `stop()`: throws if no session is active; otherwise sends `"H"` (byte
72), drops the sequence, emits `streamStopped` when in stream mode, resets
the flags and clears the incoming buffer. -/
def stop (s : EngineState) : OpResult :=
  if ¬ s.isStreaming then
    ⟨s, [], some SerialError.noStreamToStop⟩
  else
    ⟨{ s with sequence := none, paused := false, isStreamMode := false,
              isImmediateMode := false, hardwareQueueFull := false,
              incomingData := [] },
     Event.sent [72] :: (if s.isStreamMode then [Event.streamStopped] else []),
     none⟩

/-- `incrementCurPoint()`: when the cursor is at `numPoints() - 1` (an `int`
comparison in the source, hence the cast to `Int`) it calls `stop()`,
otherwise it moves the cursor one step forward. -/
def incrementCurPoint (s : EngineState) : OpResult :=
  match s.sequence with
  | none => ⟨s, [], some SerialError.nullSequence⟩
  | some seq =>
    if (seq.curPoint : Int) = (seq.numPoints : Int) - 1 then
      stop s
    else
      ⟨{ s with sequence := some (seq.setCurPoint (seq.curPoint + 1)) }, [], none⟩

/-- `pauseStream()`: throws outside stream mode, otherwise sets the pause
flag. -/
def pauseStream (s : EngineState) : OpResult :=
  if ¬ s.isStreamMode then
    ⟨s, [], some SerialError.notStreaming⟩
  else
    ⟨{ s with paused := true }, [], none⟩

/-- `resumeStream()`: throws outside stream mode; returns immediately when
not paused; otherwise clears the pause flag and, when the hardware queue is
not full, sends the current point and calls `incrementCurPoint()`. -/
def resumeStream (s : EngineState) : OpResult :=
  if ¬ s.isStreamMode then
    ⟨s, [], some SerialError.notStreaming⟩
  else if ¬ s.paused then
    ⟨s, [], none⟩
  else
    let s1 : EngineState := { s with paused := false }
    if ¬ s1.hardwareQueueFull then
      match s1.sequence with
      | none => ⟨s1, [], some SerialError.nullSequence⟩
      | some seq =>
        let r := incrementCurPoint s1
        ⟨r.st, Event.sent (createSequencePacketForPoint seq.point) :: r.evs, r.err⟩
    else
      ⟨s1, [], none⟩

/-- `arduinoBootFinished()`: no-op when no session is active; otherwise
sends the start packet (`'S'` = 83 in stream mode, `'I'` = 73 in immediate
mode, followed by `m_sequence->pointDim() && 0xFF` — logical AND in the
source), then the packet of the current point; in stream mode it also emits
`streamStarted` and calls `incrementCurPoint()`. -/
def arduinoBootFinished (s : EngineState) : OpResult :=
  if s.isStreaming then
    match s.sequence with
    | none => ⟨s, [], some SerialError.nullSequence⟩
    | some seq =>
      if s.isStreamMode then
        let startPacket := [83, cppAnd seq.pointDim 0xFF]
        let r := incrementCurPoint s
        ⟨r.st,
         Event.sent startPacket
           :: Event.sent (createSequencePacketForPoint seq.point)
           :: Event.streamStarted :: r.evs,
         r.err⟩
      else if s.isImmediateMode then
        let startPacket := [73, cppAnd seq.pointDim 0xFF]
        ⟨s,
         [Event.sent startPacket,
          Event.sent (createSequencePacketForPoint seq.point)],
         none⟩
      else
        ⟨s, [], some SerialError.unknownMode⟩
  else
    ⟨s, [], none⟩

/-- `startStream(sequence, startFromCurrent)`: throws when the port is
closed or a session is active; otherwise clears the buffer, sets the flags,
binds the sequence (resetting its cursor unless `startFromCurrent`), and
runs `arduinoBootFinished()` now when the boot timer is not active. -/
def startStream (s : EngineState) (seq : Sequence) (startFromCurrent : Bool) : OpResult :=
  if ¬ s.portOpen then
    ⟨s, [], some SerialError.closedPort⟩
  else if s.isStreaming then
    ⟨s, [], some SerialError.alreadyStreaming⟩
  else
    let seq1 := if startFromCurrent then seq else seq.setCurPoint 0
    let s1 : EngineState :=
      { s with incomingData := [], paused := false, isStreamMode := true,
               isImmediateMode := false, hardwareQueueFull := false,
               sequence := some seq1 }
    if ¬ s.bootActive then arduinoBootFinished s1 else ⟨s1, [], none⟩

/-- `startImmediate(sequence)`: throws when the port is closed or a session
is active; otherwise clears the buffer, sets immediate mode, binds the
sequence, and runs `arduinoBootFinished()` now when the boot timer is not
active. -/
def startImmediate (s : EngineState) (seq : Sequence) : OpResult :=
  if ¬ s.portOpen then
    ⟨s, [], some SerialError.closedPort⟩
  else if s.isStreaming then
    ⟨s, [], some SerialError.alreadyStreaming⟩
  else
    let s1 : EngineState :=
      { s with incomingData := [], isStreamMode := false,
               isImmediateMode := true, sequence := some seq }
    if ¬ s.bootActive then arduinoBootFinished s1 else ⟨s1, [], none⟩

/-- `openSerial(port, baudRate)`: throws when a session is active; otherwise
closes any old port, tries to open the new one (the outcome of the external
`QSerialPort::open` call is the parameter `openSucceeds`) and, on success,
arms the 1000 ms boot timer. -/
def openSerial (s : EngineState) (openSucceeds : Bool) : OpResult :=
  if s.isStreaming then
    ⟨s, [], some SerialError.cannotOpenWhileStreaming⟩
  else
    let s1 : EngineState := { s with portOpen := false }
    if ¬ openSucceeds then
      ⟨s1, [], none⟩
    else
      ⟨{ s1 with portOpen := true, bootActive := true }, [], none⟩

/-- `closeSerial()`: throws when a session is active; otherwise closes the
port. -/
def closeSerial (s : EngineState) : OpResult :=
  if s.isStreaming then
    ⟨s, [], some SerialError.cannotCloseWhileStreaming⟩
  else
    ⟨{ s with portOpen := false }, [], none⟩

/-- Result of one iteration of the `while` loop in `handleReadyRead()`:
state, events, the `partialPacket` flag (`incomplete`), and the error of a
null-sequence dereference, were one possible. -/
structure StepResult where
  st : EngineState
  evs : List Event
  incomplete : Bool
  err : Option SerialError
deriving DecidableEq

/-- One iteration of the decode loop body of `handleReadyRead()`. In stream
mode a leading `'N'` (78) clears the queue-full flag, sends the current
point, calls `incrementCurPoint()` and then removes one byte; a leading
`'F'` (70) sets the flag and removes one byte. A leading `'D'` (68) in any
mode needs 2 bytes, then `2 + msgLength` bytes; when complete it emits
`debugMessage` with the payload — and, as in the source, removes nothing.
Any other byte emits `streamError` and is removed. -/
def readLoopBody (s : EngineState) : StepResult :=
  match s.incomingData with
  | [] => ⟨s, [], false, none⟩
  | b :: _ =>
    if s.isStreamMode && (b == 78) then
      let s1 : EngineState := { s with hardwareQueueFull := false }
      match s1.sequence with
      | none => ⟨s1, [], false, some SerialError.nullSequence⟩
      | some seq =>
        let pkt := createSequencePacketForPoint seq.point
        let r := incrementCurPoint s1
        match r.err with
        | some e => ⟨r.st, Event.sent pkt :: r.evs, false, some e⟩
        | none =>
          ⟨{ r.st with incomingData := r.st.incomingData.drop 1 },
           Event.sent pkt :: r.evs, false, none⟩
    else if s.isStreamMode && (b == 70) then
      ⟨{ s with hardwareQueueFull := true,
                incomingData := s.incomingData.drop 1 }, [], false, none⟩
    else if b == 68 then
      if s.incomingData.length < 2 then
        ⟨s, [], true, none⟩
      else
        let msgLength := s.incomingData.getD 1 0
        if s.incomingData.length < 2 + msgLength then
          ⟨s, [], true, none⟩
        else
          ⟨s, [Event.debugMessage ((s.incomingData.drop 2).take msgLength)],
           false, none⟩
    else
      ⟨{ s with incomingData := s.incomingData.drop 1 },
       [Event.streamError b], false, none⟩

/-- Outcome of running the decode loop with bounded fuel: `done` when the
loop guard exits (buffer empty or `partialPacket` set), `outOfFuel` when the
bound ran out with the loop still going, `err` on a modelled null
dereference. -/
inductive LoopResult where
  | done (st : EngineState) (evs : List Event)
  | outOfFuel (st : EngineState) (evs : List Event)
  | err (st : EngineState) (evs : List Event) (e : SerialError)
deriving DecidableEq

/-- The `while (!(m_incomingData.isEmpty() || partialPacket))` loop of
`handleReadyRead()`, with explicit fuel since the source loop need not
terminate. -/
def readLoop : Nat → EngineState → List Event → LoopResult
  | 0, s, evs => LoopResult.outOfFuel s evs
  | Nat.succ fuel, s, evs =>
    if s.incomingData.isEmpty then
      LoopResult.done s evs
    else
      let r := readLoopBody s
      match r.err with
      | some e => LoopResult.err r.st (evs ++ r.evs) e
      | none =>
        if r.incomplete then
          LoopResult.done r.st (evs ++ r.evs)
        else
          readLoop fuel r.st (evs ++ r.evs)

/-- `handleReadyRead()`: append the newly arrived bytes to the buffer, then
run the decode loop. -/
def handleReadyRead (fuel : Nat) (s : EngineState) (newBytes : List Nat) : LoopResult :=
  readLoop fuel { s with incomingData := s.incomingData ++ newBytes } []

/-- Modelled from the spec: the parser for the fixed point-packet layout of
the wire-format table — tag `'P'`, big-endian duration, big-endian
timeToTarget, then the value bytes. Used to state the round-trip claim. -/
def parsePointPacket (pkt : List Nat) : Option SequencePoint :=
  match pkt with
  | 80 :: d1 :: d2 :: t1 :: t2 :: vals =>
    some ⟨d1 * 256 + d2, t1 * 256 + t2, vals⟩
  | _ => none

/-- A call that fails as a precondition violation: the exception is raised,
no event is produced, and the engine state is returned unchanged. -/
def invalidOp (s : EngineState) (r : OpResult) : Prop :=
  r.st = s ∧ r.evs = [] ∧ r.err.isSome = true

/-! Concrete states used by the counterexamples and witnesses. -/

/-- An idle state whose buffer holds the complete debug frame
`'D'`, length 2, `'a'`, `'b'` (5 bytes would be `2 + len = 4` here). -/
def dbgOnce : EngineState :=
  ⟨true, false, false, false, false, false, [68, 2, 97, 98], none⟩

/-- An idle state whose buffer holds the complete debug frame
`'D'`, length 1, `'a'`. -/
def dbgDiv : EngineState :=
  ⟨true, false, false, false, false, false, [68, 1, 97], none⟩

/-- A streaming state over a 2-point sequence of dimensionality 3, cursor at
0, used for the start-packet counterexample. -/
def bootW : EngineState :=
  ⟨true, false, true, false, false, false, [],
   some ⟨[⟨0, 0, [0, 0, 0]⟩, ⟨0, 0, [0, 0, 0]⟩], 0, 3⟩⟩

/-- A 3-point sequence (dimensionality 2) with the cursor at 0. -/
def seqW : Sequence :=
  ⟨[⟨1, 2, [3, 4]⟩, ⟨5, 6, [7, 8]⟩, ⟨9, 10, [11, 12]⟩], 0, 2⟩

/-- A streaming state over `seqW`, not paused, queue not full. -/
def streamW : EngineState :=
  ⟨true, false, true, false, false, false, [], some seqW⟩

/-- A streaming state over `seqW`, paused, queue not full. -/
def pausedW : EngineState :=
  ⟨true, false, true, false, true, false, [], some seqW⟩

/-- An idle state: port open, no session bound. -/
def idleW : EngineState :=
  ⟨true, false, false, false, false, false, [], none⟩

/-- A 1-point sequence, so its cursor 0 is the last index. -/
def seqLastW : Sequence := ⟨[⟨1, 2, [3, 4]⟩], 0, 2⟩

/-- A streaming state over `seqLastW` with the cursor at the last index. -/
def lastW : EngineState :=
  ⟨true, false, true, false, false, false, [], some seqLastW⟩

/-! The claims. -/

/-- Claim C1: refuted on the code. At the complete debug frame
`[68, 2, 97, 98]` (`'D'`, len 2, `'a'`, `'b'`) one decode iteration emits
one `DebugMessage` whose text has length `len = 2`, but consumes 0 bytes
instead of `2 + len = 4`: the returned state equals the input state, buffer
included, so the loop re-processes the same frame forever. -/
theorem readLoopBody_debug_no_consume :
    readLoopBody dbgOnce = ⟨dbgOnce, [Event.debugMessage [97, 98]], false, none⟩ ∧
    dbgOnce.incomingData = [68, 2, 97, 98] :=
  ⟨rfl, rfl⟩

/-- One decode iteration at the complete debug frame `[68, 1, 97]` returns
the state unchanged with the `partialPacket` flag clear. -/
theorem readLoopBody_dbgDiv :
    readLoopBody dbgDiv = ⟨dbgDiv, [Event.debugMessage [97]], false, none⟩ :=
  rfl

/-- Claim C2: refuted on the code. On the buffer `[68, 1, 97]` — a complete
debug frame, so neither empty nor an incomplete head — the decode loop of
`handleReadyRead` makes no progress: for every fuel bound it runs out of
fuel in the very same state, i.e. the source `while` loop never
terminates. -/
theorem readLoop_debug_diverges :
    ∀ fuel : Nat, ∀ evs : List Event,
      ∃ evs', readLoop fuel dbgDiv evs = LoopResult.outOfFuel dbgDiv evs' := by
  intro fuel
  induction fuel with
  | zero => exact fun evs => ⟨evs, rfl⟩
  | succ n ih =>
    intro evs
    obtain ⟨evs', h⟩ := ih (evs ++ [Event.debugMessage [97]])
    exact ⟨evs', h⟩

/-- Witness for claim C2: with fuel 3 and no prior events the loop is still
running, in the very same state it started in. -/
theorem readLoop_debug_diverges_witness :
    ∃ evs', readLoop 3 dbgDiv [] = LoopResult.outOfFuel dbgDiv evs' :=
  readLoop_debug_diverges 3 []

/-- Claim C3: refuted on the code at duration 512. The source masks the
high bytes with logical AND (`&&`), so byte1 of the packet is 1 rather than
the high byte 2, and parsing the fixed layout back gives duration 256, not
512: the round-trip fails. -/
theorem createSequencePacketForPoint_no_roundtrip :
    createSequencePacketForPoint ⟨512, 0, []⟩ = [80, 1, 0, 0, 0] ∧
    parsePointPacket (createSequencePacketForPoint ⟨512, 0, []⟩) =
      some ⟨256, 0, []⟩ ∧
    parsePointPacket (createSequencePacketForPoint ⟨512, 0, []⟩) ≠
      some ⟨512, 0, []⟩ := by
  refine ⟨rfl, rfl, by decide⟩

/-- Claim C4: refuted on the code at dimensionality 3. The start packet the
boot handler sends carries `pointDim() && 0xFF` — a logical AND, which is 1
for the dimensionality 3 — whereas `3 &&& 0xFF = 3`: the second byte is not
the dimensionality masked to 8 bits. -/
theorem arduinoBootFinished_dim_byte :
    (arduinoBootFinished bootW).evs.head? = some (Event.sent [83, 1]) ∧
    (3 : Nat) &&& 0xFF = 3 ∧ (1 : Nat) ≠ 3 := by
  refine ⟨rfl, by decide, by decide⟩

/-- Claim C5: in a streaming session with a valid cursor, advancing the
cursor at the last index triggers `stop` — the `'H'` packet is sent,
`streamStopped` is emitted, both mode flags become false (Idle) — and
otherwise the cursor moves to the next index, which is still at most the
last index; no out-of-range cursor is ever set. -/
theorem incrementCurPoint_boundary (s : EngineState) (seq : Sequence)
    (hseq : s.sequence = some seq)
    (hsm : s.isStreamMode = true)
    (hlt : seq.curPoint < seq.numPoints) :
    (seq.curPoint = seq.numPoints - 1 →
      incrementCurPoint s =
        ⟨{ s with sequence := none, paused := false, isStreamMode := false,
                  isImmediateMode := false, hardwareQueueFull := false,
                  incomingData := [] },
         [Event.sent [72], Event.streamStopped], none⟩) ∧
    (seq.curPoint ≠ seq.numPoints - 1 →
      incrementCurPoint s =
        ⟨{ s with sequence := some { seq with curPoint := seq.curPoint + 1 } },
         [], none⟩ ∧
      seq.curPoint + 1 ≤ seq.numPoints - 1) := by
  constructor
  · intro heq
    have hc : (seq.curPoint : Int) = (seq.numPoints : Int) - 1 := by omega
    simp [incrementCurPoint, hseq, hc, stop, EngineState.isStreaming, hsm]
  · intro hne
    have hc : ¬ ((seq.curPoint : Int) = (seq.numPoints : Int) - 1) := by omega
    refine ⟨?_, by omega⟩
    simp [incrementCurPoint, hseq, hc, Sequence.setCurPoint]

/-- Witness for claim C5: `lastW` streams `seqLastW`, whose single point
makes cursor 0 the last index, so the advance stops the stream. -/
theorem incrementCurPoint_boundary_witness :
    incrementCurPoint lastW =
      ⟨{ lastW with sequence := none, paused := false, isStreamMode := false,
                    isImmediateMode := false, hardwareQueueFull := false,
                    incomingData := [] },
       [Event.sent [72], Event.streamStopped], none⟩ :=
  (incrementCurPoint_boundary lastW seqLastW rfl rfl (by decide)).1 (by decide)

/-- Claim C6: in a paused streaming session with the queue-full flag clear,
an incoming `'F'` sets the flag; `resumeStream` called right after clears
only the pause flag — it sends no packet and leaves the cursor where it
was — and only a subsequent `'N'` (QueueReady) clears the flag and sends
the current point again. -/
theorem queue_full_gates_resume (s : EngineState) (seq : Sequence)
    (hsm : s.isStreamMode = true) (him : s.isImmediateMode = false)
    (hp : s.paused = true) (hq : s.hardwareQueueFull = false)
    (hbuf : s.incomingData = []) (hseq : s.sequence = some seq)
    (hlt : seq.curPoint + 1 < seq.numPoints) :
    handleReadyRead 2 s [70] =
      LoopResult.done { s with hardwareQueueFull := true } [] ∧
    resumeStream { s with hardwareQueueFull := true } =
      ⟨{ s with hardwareQueueFull := true, paused := false }, [], none⟩ ∧
    handleReadyRead 2 { s with hardwareQueueFull := true, paused := false } [78] =
      LoopResult.done
        { s with paused := false,
                 sequence := some { seq with curPoint := seq.curPoint + 1 } }
        [Event.sent (createSequencePacketForPoint seq.point)] := by
  obtain ⟨po, ba, sm, im, pa, qf, buf, sq⟩ := s
  dsimp only at hsm him hp hq hbuf hseq
  subst hsm him hp hq hbuf hseq
  have hc : ¬ ((seq.curPoint : Int) = (seq.numPoints : Int) - 1) := by omega
  refine ⟨?_, ?_, ?_⟩
  · simp [handleReadyRead, readLoop, readLoopBody]
  · simp [resumeStream]
  · simp [handleReadyRead, readLoop, readLoopBody, incrementCurPoint, hc,
          Sequence.setCurPoint]

/-- Witness for claim C6: the paused streaming state `pausedW` over the
3-point sequence `seqW`. -/
theorem queue_full_gates_resume_witness :
    handleReadyRead 2 pausedW [70] =
      LoopResult.done { pausedW with hardwareQueueFull := true } [] ∧
    resumeStream { pausedW with hardwareQueueFull := true } =
      ⟨{ pausedW with hardwareQueueFull := true, paused := false }, [], none⟩ ∧
    handleReadyRead 2
        { pausedW with hardwareQueueFull := true, paused := false } [78] =
      LoopResult.done
        { pausedW with paused := false,
                       sequence := some { seqW with curPoint := seqW.curPoint + 1 } }
        [Event.sent (createSequencePacketForPoint seqW.point)] :=
  queue_full_gates_resume pausedW seqW rfl rfl rfl rfl rfl rfl (by decide)

/-- Claim C7: `resumeStream` in stream mode with the pause flag false is a
no-op: no packet is sent, no event is emitted, and the state is returned
unchanged. -/
theorem resumeStream_not_paused_noop (s : EngineState)
    (hsm : s.isStreamMode = true) (hp : s.paused = false) :
    resumeStream s = ⟨s, [], none⟩ := by
  simp [resumeStream, hsm, hp]

/-- Witness for claim C7: the non-paused streaming state `streamW`. -/
theorem resumeStream_not_paused_noop_witness :
    resumeStream streamW = ⟨streamW, [], none⟩ :=
  resumeStream_not_paused_noop streamW rfl rfl

/-- Claim C8: every precondition-violating call — `openSerial` or
`closeSerial` while a session is active, `startStream` or `startImmediate`
while a session is active or while the port is closed, `pauseStream` or
`resumeStream` outside stream mode, `stop` with no active session — raises
the invalid-operation exception, emits nothing, and returns the engine
state unchanged. -/
theorem precondition_violations_unchanged (s : EngineState) (seq : Sequence)
    (b sc : Bool) :
    (s.isStreaming = true →
      invalidOp s (openSerial s b) ∧ invalidOp s (closeSerial s) ∧
      invalidOp s (startStream s seq sc) ∧ invalidOp s (startImmediate s seq)) ∧
    (s.portOpen = false →
      invalidOp s (startStream s seq sc) ∧ invalidOp s (startImmediate s seq)) ∧
    (s.isStreamMode = false →
      invalidOp s (pauseStream s) ∧ invalidOp s (resumeStream s)) ∧
    (s.isStreaming = false → invalidOp s (stop s)) := by
  refine ⟨?_, ?_, ?_, ?_⟩
  · intro h
    by_cases hp : s.portOpen <;>
      simp [openSerial, closeSerial, startStream, startImmediate, invalidOp, h, hp]
  · intro hp
    simp [startStream, startImmediate, invalidOp, hp]
  · intro hm
    simp [pauseStream, resumeStream, invalidOp, hm]
  · intro h
    simp [stop, invalidOp, h]

/-- Witness for claim C8: `stop` on the idle state `idleW` and
`startImmediate` on the streaming state `streamW` both fail without
mutation. -/
theorem precondition_violations_unchanged_witness :
    invalidOp idleW (stop idleW) ∧
    invalidOp streamW (startImmediate streamW seqW) :=
  ⟨(precondition_violations_unchanged idleW seqW true true).2.2.2 rfl,
   ((precondition_violations_unchanged streamW seqW true true).1 rfl).2.2.2⟩

/-- Claim C9: in stream mode with the pause flag set and the queue-full
flag clear, an incoming `'N'` still sends the current point and advances
the cursor — the pause flag does not gate the QueueReady reaction (and it
stays set afterwards). -/
theorem paused_does_not_gate_queue_ready (s : EngineState) (seq : Sequence)
    (hsm : s.isStreamMode = true) (hp : s.paused = true)
    (hq : s.hardwareQueueFull = false)
    (hbuf : s.incomingData = []) (hseq : s.sequence = some seq)
    (hlt : seq.curPoint + 1 < seq.numPoints) :
    handleReadyRead 2 s [78] =
      LoopResult.done
        { s with sequence := some { seq with curPoint := seq.curPoint + 1 } }
        [Event.sent (createSequencePacketForPoint seq.point)] := by
  obtain ⟨po, ba, sm, im, pa, qf, buf, sq⟩ := s
  dsimp only at hsm hp hq hbuf hseq
  subst hsm hp hq hbuf hseq
  have hc : ¬ ((seq.curPoint : Int) = (seq.numPoints : Int) - 1) := by omega
  simp [handleReadyRead, readLoop, readLoopBody, incrementCurPoint, hc,
        Sequence.setCurPoint]

/-- Witness for claim C9: the paused streaming state `pausedW`. -/
theorem paused_does_not_gate_queue_ready_witness :
    handleReadyRead 2 pausedW [78] =
      LoopResult.done
        { pausedW with sequence := some { seqW with curPoint := seqW.curPoint + 1 } }
        [Event.sent (createSequencePacketForPoint seqW.point)] :=
  paused_does_not_gate_queue_ready pausedW seqW rfl rfl rfl rfl rfl (by decide)

/-- Claim C10: in a streaming session with the cursor at the last index, a
decode pass over `'N'` followed by any further bytes sends the current
point, then the `'H'` stop packet, emits `streamStopped`, clears the buffer
and ends the pass: the trailing bytes produce no event and are discarded
undelivered. -/
theorem stop_mid_pass_discards_rest (s : EngineState) (seq : Sequence)
    (extra : List Nat)
    (hsm : s.isStreamMode = true) (him : s.isImmediateMode = false)
    (hbuf : s.incomingData = []) (hseq : s.sequence = some seq)
    (hne : seq.points ≠ []) (hlast : seq.curPoint = seq.numPoints - 1) :
    handleReadyRead 2 s (78 :: extra) =
      LoopResult.done
        { s with sequence := none, paused := false, isStreamMode := false,
                 isImmediateMode := false, hardwareQueueFull := false,
                 incomingData := [] }
        [Event.sent (createSequencePacketForPoint seq.point),
         Event.sent [72], Event.streamStopped] := by
  obtain ⟨po, ba, sm, im, pa, qf, buf, sq⟩ := s
  dsimp only at hsm him hbuf hseq
  subst hsm him hbuf hseq
  have hn : 0 < seq.points.length := List.length_pos.mpr hne
  have hc : (seq.curPoint : Int) = (seq.points.length : Int) - 1 := by
    simp [Sequence.numPoints] at hlast
    omega
  simp [handleReadyRead, readLoop, readLoopBody, incrementCurPoint,
        Sequence.numPoints, stop, EngineState.isStreaming, hc]

/-- Witness for claim C10: the last-index streaming state `lastW`, with
three trailing bytes that are dropped undelivered. -/
theorem stop_mid_pass_discards_rest_witness :
    handleReadyRead 2 lastW (78 :: [1, 2, 3]) =
      LoopResult.done
        { lastW with sequence := none, paused := false, isStreamMode := false,
                     isImmediateMode := false, hardwareQueueFull := false,
                     incomingData := [] }
        [Event.sent (createSequencePacketForPoint seqLastW.point),
         Event.sent [72], Event.streamStopped] :=
  stop_mid_pass_discards_rest lastW seqLastW [1, 2, 3] rfl rfl rfl rfl
    (by decide) (by decide)

end SerialComm
